import Mathlib

/-!
Verification of the core control logic of the vox voice-dictation pipeline.

The development shallowly embeds the pipeline coordinator (src/vox/app.py),
the hotkey gate state (src/vox/hotkey.py), the transcript hallucination
filter (src/vox/stt/faster_whisper_engine.py) and the LLM format validator
(src/vox/llm.py).  Text is modelled as List Char, wall-clock instants and
durations as rationals, and fallible collaborator calls as Except values.
-/

namespace Vox

/- ===== Generic string primitives (Python str / re behaviour) ===== -/

/-- Substring occurrence test: models Python's in operator on str and
re.search of a literal (metacharacter-free) pattern. -/
def containsSub (pat s : List Char) : Bool :=
  match s with
  | [] => pat.isEmpty
  | c :: rest => pat.isPrefixOf (c :: rest) || containsSub pat rest

/-- One step bound for str.replace: fuel-structural scan so the definition
stays kernel-computable.  Fuel at least the length of the scanned list is
always sufficient since every step consumes at least one character. -/
def replaceFuel : ℕ → List Char → List Char → List Char → List Char
  | 0, s, _, _ => s
  | _ + 1, [], _, _ => []
  | fuel + 1, c :: rest, old, new =>
    if old.isPrefixOf (c :: rest) && !old.isEmpty then
      new ++ replaceFuel fuel ((c :: rest).drop old.length) old new
    else
      c :: replaceFuel fuel rest old new

/-- Python str.replace(old, new): left-to-right, non-overlapping.  The
empty-pattern case follows CPython (new interleaved around every character
and at both ends). -/
def strReplace (s old new : List Char) : List Char :=
  if old.isEmpty then new ++ s.foldr (fun c acc => c :: (new ++ acc)) []
  else replaceFuel s.length s old new

/-- Whitespace as used by Python str.strip and the regex class backslash-s,
restricted to the character repertoire this program handles: ASCII
whitespace plus the ideographic space U+3000. -/
def isWSChar (c : Char) : Bool :=
  c = ' ' || c = '\t' || c = '\n' || c = '\r' ||
  c = Char.ofNat 11 || c = Char.ofNat 12 || c = Char.ofNat 0x3000

/- ===== Hotkey gate state (src/vox/hotkey.py) ===== -/

/-- Mutable state of HotkeyListener: the _enabled and _is_pressed flags
(hotkey.py lines 49-50), both guarded by one lock in the source. -/
structure GateState where
  enabled : Bool
  pressed : Bool
deriving DecidableEq

/-- HotkeyListener.set_enabled (hotkey.py lines 53-56).  The source updates
only the _enabled flag inside the lock; it does not touch _is_pressed. -/
def set_enabled (g : GateState) (enabled : Bool) : GateState :=
  { g with enabled := enabled }

/-- HotkeyListener._handle_press for a trigger key (hotkey.py lines 74-85,
after the trigger-alias filter): ignore when disabled or already pressed,
otherwise mark pressed and fire the on_press callback (second component). -/
def handle_press (g : GateState) : GateState × Bool :=
  if !g.enabled || g.pressed then (g, false)
  else ({ g with pressed := true }, true)

/-- HotkeyListener._handle_release for a trigger key (hotkey.py lines
87-98): ignore when not pressed, otherwise clear pressed and fire the
on_release callback (second component). -/
def handle_release (g : GateState) : GateState × Bool :=
  if !g.pressed then (g, false)
  else ({ g with pressed := false }, true)

/- ===== Pipeline coordinator state (src/vox/app.py) ===== -/

/-- Coordinator flags of VoxApp guarded by self._lock (app.py lines 34-37),
together with the gate state of the owned HotkeyListener. -/
structure CoordState where
  processing : Bool
  recording_active : Bool
  last_pipeline_end : ℚ
  gate : GateState
deriving DecidableEq

/-- VoxApp._PIPELINE_COOLDOWN_SEC = 0.3 (app.py line 93). -/
def pipeline_cooldown_sec : ℚ := 3 / 10

/-- VoxApp._on_key_press (app.py lines 95-104).  The second component is
true when the press is accepted, in which case the source then starts the
recorder (the capture session begins). -/
def on_key_press (s : CoordState) (now : ℚ) : CoordState × Bool :=
  if s.processing then (s, false)
  else if now - s.last_pipeline_end < pipeline_cooldown_sec then (s, false)
  else ({ s with recording_active := true }, true)

/-- VoxApp._on_key_release (app.py lines 106-120).  The second component is
true when a pipeline worker is launched; on that path the source also
disables the hotkey gate (line 115) before starting the worker thread. -/
def on_key_release (s : CoordState) : CoordState × Bool :=
  if !s.recording_active then (s, false)
  else if s.processing then ({ s with recording_active := false }, false)
  else
    ({ s with
        recording_active := false
        processing := true
        gate := set_enabled s.gate false }, true)

/- ===== Configuration (src/vox/config.py) ===== -/

/-- LLMConfig fields consulted by the coordinator (config.py lines 47-56).
The source model has no enabled field: skip_short and skip_short_max_chars
are the only knobs that influence whether the LLM stage runs. -/
structure LLMConfig where
  skip_short : Bool
  skip_short_max_chars : ℕ
deriving DecidableEq

/-- AudioConfig fields consulted by the pipeline (config.py lines 63-67). -/
structure AudioConfig where
  sample_rate : ℕ
  min_duration_sec : ℚ
deriving DecidableEq

/-- STTConfig.word_replacements (config.py line 42), an ordered mapping
applied with str.replace; modelled as an association list in insertion
order. -/
structure STTConfig where
  word_replacements : List (List Char × List Char)
deriving DecidableEq

/-- The slice of AppConfig that the pipeline coordinator reads. -/
structure AppConfig where
  stt : STTConfig
  llm : LLMConfig
  audio : AudioConfig
deriving DecidableEq

/- ===== LLM-skip heuristic and word replacements (src/vox/app.py) ===== -/

/-- VoxApp._FILLERS (app.py line 122). -/
def app_fillers : List (List Char) :=
  ["えーと", "あのー", "あの", "まあ", "えー", "うーん", "えっと"].map String.toList

/-- VoxApp._should_skip_llm (app.py lines 124-130). -/
def should_skip_llm (cfg : LLMConfig) (text : List Char) : Bool :=
  if !cfg.skip_short then false
  else if cfg.skip_short_max_chars < text.length then false
  else !(app_fillers.any fun f => containsSub f text)

/-- VoxApp._apply_word_replacements (app.py lines 132-136). -/
def apply_word_replacements (cfg : STTConfig) (text : List Char) : List Char :=
  cfg.word_replacements.foldl (fun t p => strReplace t p.1 p.2) text

/- ===== The pipeline run (src/vox/app.py lines 138-193) ===== -/

/-- Behaviour of the out-of-scope collaborators during one run.  An error
value models the call raising an exception; recorder_stop yields the number
of captured samples. -/
structure PipelineEnv where
  recorder_stop : Except Unit ℕ
  stt_transcribe : Except Unit (List Char)
  llm_format : Except Unit (List Char)
  insert_result : List Char → Except Unit Unit

/-- How the body of VoxApp._process_pipeline exits: successful insertion,
one of the early aborts, or an exception caught by the outer handler. -/
inductive PipelineOutcome where
  | inserted (text : List Char)
  | abort_no_audio
  | abort_too_short
  | abort_empty_text
  | errored
deriving DecidableEq

/-- The LLM-formatting stage of the run (app.py lines 166-179): skip for
short clean text, otherwise call the formatter and fall back to the raw
text when the call raises. -/
def format_stage (cfg : AppConfig) (env : PipelineEnv) (raw : List Char) : List Char :=
  if should_skip_llm cfg.llm raw then raw
  else
    match env.llm_format with
    | .ok formatted => formatted
    | .error _ => raw

/-- The try-block body of VoxApp._process_pipeline (app.py lines 140-187):
stop recording, abort on empty or too-short audio, transcribe, abort on
blank text, apply word replacements, format, insert.  Any collaborator
exception is caught by the outer handler (line 186) and yields the errored
outcome.  The body performs no gate calls and touches no coordinator flag. -/
def run_body (cfg : AppConfig) (env : PipelineEnv) : PipelineOutcome :=
  match env.recorder_stop with
  | .error _ => .errored
  | .ok samples =>
    if samples = 0 then .abort_no_audio
    else if (samples : ℚ) / (cfg.audio.sample_rate : ℚ) < cfg.audio.min_duration_sec then
      .abort_too_short
    else
      match env.stt_transcribe with
      | .error _ => .errored
      | .ok raw0 =>
        if raw0.all isWSChar then .abort_empty_text
        else
          let raw := apply_word_replacements cfg.stt raw0
          let formatted := format_stage cfg env raw
          match env.insert_result formatted with
          | .ok _ => .inserted formatted
          | .error _ => .errored

/-- The finally-block of VoxApp._process_pipeline (app.py lines 188-193):
clear _processing, stamp _last_pipeline_end with the current time, and
re-enable the hotkey gate via set_enabled(True). -/
def run_cleanup (s : CoordState) (now : ℚ) : CoordState :=
  let s1 := { s with processing := false, last_pipeline_end := now }
  { s1 with gate := set_enabled s1.gate true }

/-- VoxApp._process_pipeline (app.py lines 138-193) as a whole: the body
runs inside try, the cleanup runs in finally on every exit path.  The third
component records the arguments of the set_enabled calls made during the
run: the body makes none, the finally block makes exactly one, with
argument True. -/
def process_pipeline (cfg : AppConfig) (env : PipelineEnv) (s : CoordState)
    (now : ℚ) : CoordState × PipelineOutcome × List Bool :=
  (run_cleanup s now, run_body cfg env, [true])

/- ===== Transcript hallucination filter
         (src/vox/stt/faster_whisper_engine.py) ===== -/

/-- The _SIMPLIFIED_CHINESE_CHARS set (faster_whisper_engine.py lines
36-44), verbatim from the source. -/
def simplified_chinese_chars : List Char :=
  String.toList
    ("这们对进过还该让从虽认谢说请问关开连运远选边达总办图书样东两为" ++
     "时应发业动产专乐义习乡亲买亚仅价传伟伤众优华单卖卫厂变" ++
     "响员团园围坏块处备复够头夺奖导层币师帮广庆归录忆态怀护报拥择" ++
     "换标权极构档桥检毕气汇汉济测热灵烦爱环现确离种积稳穷竞笔" ++
     "类级纪约经绍结给统续综绿网罗职联脑脸节药获虑补观规觉计订记设证评识词" ++
     "译详语课调谁谈账质贡财责败货贸费资赛赞轮转车轻输辑农适递遗释针钱铁银" ++
     "错键阅队阳阶险际隐难预领频风飞饭馆验鱼鸡龙")

/-- FasterWhisperEngine._contains_simplified_chinese (lines 147-149). -/
def contains_simplified_chinese (text : List Char) : Bool :=
  text.any fun ch => simplified_chinese_chars.contains ch

/-- The _HALLUCINATION_PATTERNS list (faster_whisper_engine.py lines
17-29); every pattern is a literal string, so re.search is substring
occurrence. -/
def hallucination_patterns : List (List Char) :=
  ["ご視聴ありがとうございました", "チャンネル登録", "高評価",
   "ご清聴ありがとうございました", "字幕", "次の動画", "ご覧いただき",
   "最後までご覧"].map String.toList

/-- The pattern loop of _validate_transcription (lines 133-138). -/
def matches_hallucination (text : List Char) : Bool :=
  hallucination_patterns.any fun p => containsSub p text

/-- The _REPETITION_RE regex (line 32): a match exists exactly when some
newline-free unit of length at least 2 occurs three or more times
consecutively (a lazy group of two-plus dot characters followed by the
backreference repeated two-plus times). -/
def has_repetition (text : List Char) : Bool :=
  (List.range text.length).any fun p =>
    (List.range (text.length + 1)).any fun l =>
      decide (2 ≤ l) && decide (p + 3 * l ≤ text.length) &&
      ((text.drop p).take l == (text.drop (p + l)).take l) &&
      ((text.drop p).take l == (text.drop (p + 2 * l)).take l) &&
      !((text.drop p).take l).contains '\n'

/-- The final two pattern checks of _validate_transcription (lines
132-145), shared by both branches of the duration guard. -/
def validate_tail (text : List Char) : List Char :=
  if matches_hallucination text then []
  else if has_repetition text then []
  else text

/-- FasterWhisperEngine._validate_transcription (lines 105-145).  The
characters-per-second ratio is computed only inside the duration-positive
guard, mirroring the nesting of the source. -/
def validate_transcription (text : List Char) (duration : ℚ) : List Char :=
  if text.isEmpty then []
  else if contains_simplified_chinese text then []
  else if 0 < duration then
    if duration < 3 ∧ (15 : ℚ) < (text.length : ℚ) / duration then []
    else validate_tail text
  else validate_tail text

/- ===== LLM format validator (src/vox/llm.py) ===== -/

/-- The character class of the _PUNCT_RE regex (llm.py line 60): Japanese
and ASCII sentence punctuation plus whitespace. -/
def isPunctWSChar (c : Char) : Bool :=
  c = '、' || c = '。' || c = '！' || c = '？' ||
  c = '.' || c = ',' || c = '!' || c = '?' || isWSChar c

/-- Normalisation used by _is_valid_formatting (llm.py lines 165-166):
_PUNCT_RE.sub removes every punctuation or whitespace character. -/
def norm_punct (s : List Char) : List Char :=
  s.filter fun c => !isPunctWSChar c

/-- The _FILLERS list of llm.py (line 59) - one entry longer than the
coordinator's list in app.py. -/
def llm_fillers : List (List Char) :=
  ["えーと", "あのー", "あの", "まあ", "えー", "うーん", "えっと",
   "ええと"].map String.toList

/-- LLMFormatter._strip_known_fillers (llm.py lines 216-221): sequential
str.replace of each filler by the empty string, in list order. -/
def strip_known_fillers (text : List Char) : List Char :=
  llm_fillers.foldl (fun t f => strReplace t f []) text

/-- Content characters as selected by _extract_content_chars (llm.py lines
235-245): Unicode categories Lo, Lu, Ll.  Modelled for the repertoire this
program handles: ASCII letters, hiragana, katakana (the prolonged sound
mark U+30FC is category Lm and hence excluded, as in the source), and CJK
unified ideographs.  The source delegates to unicodedata.category. -/
def isContentChar (c : Char) : Bool :=
  (decide ('A' ≤ c) && decide (c ≤ 'Z')) ||
  (decide ('a' ≤ c) && decide (c ≤ 'z')) ||
  (decide (0x3041 ≤ c.toNat) && decide (c.toNat ≤ 0x3096)) ||
  (decide (0x30A1 ≤ c.toNat) && decide (c.toNat ≤ 0x30FA)) ||
  (decide (0x3400 ≤ c.toNat) && decide (c.toNat ≤ 0x4DBF)) ||
  (decide (0x4E00 ≤ c.toNat) && decide (c.toNat ≤ 0x9FFF))

/-- The set of content characters of a text, as a duplicate-free list. -/
def content_chars (text : List Char) : List Char :=
  (text.filter isContentChar).dedup

/-- LLMFormatter._novel_content_ratio (llm.py lines 223-233): the fraction
of distinct content characters of the output that do not occur in the
input; zero when the output has no content characters. -/
def novel_content_ratio (raw_input llm_output : List Char) : ℚ :=
  if (content_chars llm_output).isEmpty then 0
  else
    (((content_chars llm_output).filter
        fun c => !(content_chars raw_input).contains c).length : ℚ) /
      ((content_chars llm_output).length : ℚ)

/-- Length of the longest common prefix of two lists. -/
def commonPrefixLen : List Char → List Char → ℕ
  | c :: cs, d :: ds => if c = d then commonPrefixLen cs ds + 1 else 0
  | _, _ => 0

/-- The find_longest_match step of difflib.SequenceMatcher: the matching
block of maximal size, with ties broken by the smallest start in a and then
the smallest start in b (the foldl keeps the first maximum in that
lexicographic order).  The autojunk popularity heuristic of the Python
implementation activates only for second strings of 200 characters or
more and is not modelled; no theorem below depends on ratio values for
such strings. -/
def longest_match (a b : List Char) : ℕ × ℕ × ℕ :=
  (List.range a.length).foldl
    (fun best i =>
      (List.range b.length).foldl
        (fun best j =>
          let k := commonPrefixLen (a.drop i) (b.drop j)
          if best.2.2 < k then (i, j, k) else best)
        best)
    (0, 0, 0)

/-- Total size of the matching blocks of SequenceMatcher (the recursive
Ratcliff-Obershelp decomposition: take the longest match, recurse on the
pieces to its left and to its right).  Fuel-structural so the definition
stays kernel-computable; fuel exceeding the length of a is always
sufficient because every recursive call strictly shortens a. -/
def matching_total_fuel : ℕ → List Char → List Char → ℕ
  | 0, _, _ => 0
  | fuel + 1, a, b =>
    let m := longest_match a b
    if m.2.2 = 0 then 0
    else
      m.2.2 + matching_total_fuel fuel (a.take m.1) (b.take m.2.1) +
        matching_total_fuel fuel (a.drop (m.1 + m.2.2)) (b.drop (m.2.1 + m.2.2))

/-- Total matched characters between a and b. -/
def matching_total (a b : List Char) : ℕ :=
  matching_total_fuel (a.length + 1) a b

/-- SequenceMatcher.ratio(): twice the matched total over the combined
length, and 1 for two empty strings as in difflib._calculate_ratio. -/
def sm_ratio (a b : List Char) : ℚ :=
  if a.length + b.length = 0 then 1
  else 2 * (matching_total a b : ℚ) / ((a.length + b.length : ℕ) : ℚ)

/-- _SM_THRESHOLD = 0.5 (llm.py line 62). -/
def sm_threshold : ℚ := 1 / 2

/-- _NOVEL_THRESHOLD = 0.5 (llm.py line 63). -/
def novel_threshold : ℚ := 1 / 2

/-- LLMFormatter._is_valid_formatting (llm.py lines 160-214).  The echo
guard compares the length excess against max(int(len(norm_in) * 0.3), 5);
for the text sizes involved the float product rounds to the exact value,
so the truncation is natural-number division by ten after scaling by
three. -/
def is_valid_formatting (raw_input llm_output : List Char) : Bool :=
  if (norm_punct raw_input).isEmpty then true
  else if sm_threshold ≤ sm_ratio (norm_punct raw_input) (norm_punct llm_output) then
    if (max (((norm_punct raw_input).length * 3 / 10 : ℕ) : ℤ) 5 : ℤ) <
        ((norm_punct llm_output).length : ℤ) - ((norm_punct raw_input).length : ℤ) then
      false
    else true
  else if (norm_punct (strip_known_fillers raw_input)).isEmpty = false ∧
      sm_threshold ≤ sm_ratio (norm_punct (strip_known_fillers raw_input))
        (norm_punct llm_output) then
    true
  else if novel_threshold < novel_content_ratio raw_input llm_output then false
  else true

/- ===== Helper lemmas ===== -/

/-- Both pattern checks of the filter tail either pass the text through or
discard it. -/
theorem validate_tail_cases (t : List Char) :
    validate_tail t = t ∨ validate_tail t = [] := by
  unfold validate_tail
  split
  · exact Or.inr rfl
  split
  · exact Or.inr rfl
  · exact Or.inl rfl

/-- A text shares every content character with itself, so its novel
content ratio is zero. -/
theorem novel_content_ratio_self (t : List Char) :
    novel_content_ratio t t = 0 := by
  have hnil : (content_chars t).filter (fun c => !(content_chars t).contains c) = [] :=
    List.filter_eq_nil_iff.mpr (fun a ha => by simpa using ha)
  unfold novel_content_ratio
  rw [hnil]
  simp

/- ===== Claim theorems ===== -/

/-- C1: for every configuration, collaborator behaviour, pre-state and
clock value, the run-exit cleanup of the pipeline executes on every exit
path: the active-run flag is cleared, the cooldown timestamp is set to the
current time, and the hotkey gate is re-enabled by exactly one
set_enabled(True) call. -/
theorem c1_run_exit_cleanup_always_runs (cfg : AppConfig) (env : PipelineEnv)
    (s : CoordState) (now : ℚ) :
    (process_pipeline cfg env s now).1.processing = false ∧
    (process_pipeline cfg env s now).1.last_pipeline_end = now ∧
    (process_pipeline cfg env s now).1.gate.enabled = true ∧
    (process_pipeline cfg env s now).2.2 = [true] :=
  ⟨rfl, rfl, rfl, rfl⟩

/-- C2 (code evaluated at the failing input): set_enabled false on a gate
with a pending press leaves the pressed flag set, contrary to the claim
(and to the repository's own test that disabling clears the press). -/
theorem c2_set_enabled_false_keeps_pressed :
    set_enabled { enabled := true, pressed := true } false =
      { enabled := false, pressed := true } :=
  rfl

/-- C3 counterexample: with cooldown 0.3, a run end at t = 1.0 and no run
active, a press at t = 1.1 is rejected, not accepted as the claim states:
1.1 - 1.0 = 0.1 lies inside the cooldown window. -/
theorem c3_press_inside_cooldown_counterexample :
    (on_key_press
        { processing := false, recording_active := false,
          last_pipeline_end := 1, gate := { enabled := true, pressed := false } }
        (11 / 10)).2 = false := by
  unfold on_key_press
  norm_num [pipeline_cooldown_sec]

/-- C3 amended: with cooldown 0.3, a run end at t = 1.0 and no run active,
presses at t = 1.1 and t = 1.2 are both rejected (inside the cooldown
window), and a press at t = 1.3, when the window has elapsed, is accepted
and starts the capture session. -/
theorem c3_cooldown_window_boundaries :
    (on_key_press
        { processing := false, recording_active := false,
          last_pipeline_end := 1, gate := { enabled := true, pressed := false } }
        (12 / 10)).2 = false ∧
    (on_key_press
        { processing := false, recording_active := false,
          last_pipeline_end := 1, gate := { enabled := true, pressed := false } }
        (13 / 10)).2 = true ∧
    (on_key_press
        { processing := false, recording_active := false,
          last_pipeline_end := 1, gate := { enabled := true, pressed := false } }
        (13 / 10)).1.recording_active = true := by
  unfold on_key_press
  norm_num [pipeline_cooldown_sec]

/-- C4: a release event while the capture-session flag is clear leaves the
coordinator state untouched and launches no worker: the active-run flag is
not set and the gate is not disabled. -/
theorem c4_release_without_press_never_starts_run (s : CoordState)
    (h : s.recording_active = false) :
    on_key_release s = (s, false) := by
  unfold on_key_release
  rw [if_pos (by simp [h])]

/-- Witness for C4 at a concrete idle state. -/
theorem c4_release_without_press_never_starts_run_witness :
    on_key_release
        { processing := false, recording_active := false,
          last_pipeline_end := 0, gate := { enabled := true, pressed := false } } =
      ({ processing := false, recording_active := false,
          last_pipeline_end := 0, gate := { enabled := true, pressed := false } },
        false) :=
  c4_release_without_press_never_starts_run _ rfl

/-- C5: for every transcript and duration the hallucination filter returns
either the input text unchanged or the empty string, never anything
else. -/
theorem c5_filter_returns_input_or_empty (text : List Char) (duration : ℚ) :
    validate_transcription text duration = text ∨
    validate_transcription text duration = [] := by
  unfold validate_transcription
  split
  · exact Or.inr rfl
  split
  · exact Or.inr rfl
  split
  · split
    · exact Or.inr rfl
    · exact validate_tail_cases text
  · exact validate_tail_cases text

set_option maxRecDepth 100000 in
/-- C6 counterexample: the validator accepts an output that echoes the
ten-character input and appends four unrelated characters, although four
characters exceed 30 percent of the input length; the echo guard only
fires above max(int(0.3 * len), 5) = 5 extra characters. -/
theorem c6_thirty_percent_counterexample :
    is_valid_formatting (String.toList "abcdefghij")
        (String.toList "abcdefghij" ++ String.toList "zzzz") = true ∧
    3 * (String.toList "abcdefghij").length < 10 * (String.toList "zzzz").length ∧
    (String.toList "zzzz").all
        (fun c => !(String.toList "abcdefghij").contains c) = true := by
  refine ⟨?_, by decide, by decide⟩
  have hni : norm_punct (String.toList "abcdefghij") = String.toList "abcdefghij" := by
    decide
  have hno : norm_punct (String.toList "abcdefghij" ++ String.toList "zzzz") =
      String.toList "abcdefghijzzzz" := by decide
  have hm : matching_total (String.toList "abcdefghij")
      (String.toList "abcdefghijzzzz") = 10 := by decide
  have hla : (String.toList "abcdefghij").length = 10 := by decide
  have hlb : (String.toList "abcdefghijzzzz").length = 14 := by decide
  have hr : sm_threshold ≤ sm_ratio (String.toList "abcdefghij")
      (String.toList "abcdefghijzzzz") := by
    unfold sm_ratio
    rw [hm, hla, hlb]
    norm_num [sm_threshold]
  unfold is_valid_formatting
  rw [hni, hno]
  rw [if_neg (by decide), if_pos hr, if_neg (by decide)]

/-- C6 amended: in the high-similarity branch (similarity ratio at least
0.5 on the punctuation-stripped strings), the validator rejects exactly
the claim's echo-plus-answer pattern once the stripped output exceeds the
stripped input by more than max(int(0.3 * len(input)), 5) characters: the
30-percent rule therefore applies only above the five-character floor. -/
theorem c6_echo_guard_rejects (raw_input llm_output : List Char)
    (h0 : (norm_punct raw_input).isEmpty = false)
    (h1 : sm_threshold ≤ sm_ratio (norm_punct raw_input) (norm_punct llm_output))
    (h2 : (max (((norm_punct raw_input).length * 3 / 10 : ℕ) : ℤ) 5 : ℤ) <
        ((norm_punct llm_output).length : ℤ) - ((norm_punct raw_input).length : ℤ)) :
    is_valid_formatting raw_input llm_output = false := by
  unfold is_valid_formatting
  rw [if_neg (by simp [h0]), if_pos h1, if_pos h2]

set_option maxRecDepth 100000 in
/-- Witness for C6 amended: a ten-character input echoed with six appended
unrelated characters lands in the high-similarity branch, exceeds the
floor, and is rejected. -/
theorem c6_echo_guard_rejects_witness :
    is_valid_formatting (String.toList "abcdefghij")
        (String.toList "abcdefghijzzzzzz") = false := by
  apply c6_echo_guard_rejects
  · decide
  · have hni : norm_punct (String.toList "abcdefghij") =
        String.toList "abcdefghij" := by decide
    have hno : norm_punct (String.toList "abcdefghijzzzzzz") =
        String.toList "abcdefghijzzzzzz" := by decide
    have hm : matching_total (String.toList "abcdefghij")
        (String.toList "abcdefghijzzzzzz") = 10 := by decide
    have hla : (String.toList "abcdefghij").length = 10 := by decide
    have hlb : (String.toList "abcdefghijzzzzzz").length = 16 := by decide
    rw [hni, hno]
    unfold sm_ratio
    rw [hm, hla, hlb]
    norm_num [sm_threshold]
  · decide

/-- C7: the format validator judges every pair of identical input and
output valid: every branch of the validator accepts when the output equals
the input. -/
theorem c7_validator_accepts_identical_pair (t : List Char) :
    is_valid_formatting t t = true := by
  unfold is_valid_formatting
  by_cases h0 : (norm_punct t).isEmpty = true
  · rw [if_pos h0]
  · rw [if_neg h0]
    by_cases h1 : sm_threshold ≤ sm_ratio (norm_punct t) (norm_punct t)
    · have hx : ¬ ((max (((norm_punct t).length * 3 / 10 : ℕ) : ℤ) 5 : ℤ) <
          ((norm_punct t).length : ℤ) - ((norm_punct t).length : ℤ)) := by
        have h5 : (5 : ℤ) ≤ max (((norm_punct t).length * 3 / 10 : ℕ) : ℤ) 5 :=
          le_max_right _ _
        omega
      rw [if_pos h1, if_neg hx]
    · rw [if_neg h1]
      by_cases h2 : (norm_punct (strip_known_fillers t)).isEmpty = false ∧
          sm_threshold ≤ sm_ratio (norm_punct (strip_known_fillers t)) (norm_punct t)
      · rw [if_pos h2]
      · have hy : ¬ (novel_threshold < novel_content_ratio t t) := by
          rw [novel_content_ratio_self]
          norm_num [novel_threshold]
        rw [if_neg h2, if_neg hy]

set_option maxRecDepth 10000 in
/-- C8 (code evaluated at the failing input): with the source
configuration model, which has no global cleanup-disable flag, the
23-character filler-bearing transcript of the repository's own
llm-disabled test is not skipped, and the formatting stage returns the LLM
formatter's output, showing the cleanup stage ran. -/
theorem c8_no_global_disable_llm_runs :
    should_skip_llm { skip_short := true, skip_short_max_chars := 20 }
        (String.toList "えーとこれはテスト用の長い音声認識テキストです") = false ∧
    format_stage
        { stt := { word_replacements := [] },
          llm := { skip_short := true, skip_short_max_chars := 20 },
          audio := { sample_rate := 16000, min_duration_sec := 1 / 2 } }
        { recorder_stop := .ok 16000, stt_transcribe := .ok [],
          llm_format := .ok (String.toList "整形済み"),
          insert_result := fun _ => .ok () }
        (String.toList "えーとこれはテスト用の長い音声認識テキストです") =
      String.toList "整形済み" := by
  constructor
  · decide
  · unfold format_stage
    rw [if_neg (by decide)]

/-- C9: if the capture-session flag and the active-run flag are not both
set, then after a key press, after a key release, and after the pipeline's
run-exit cleanup they are still not both set. -/
theorem c9_flags_never_both_true (cfg : AppConfig) (env : PipelineEnv)
    (s : CoordState) (now : ℚ)
    (h : (s.recording_active && s.processing) = false) :
    ((on_key_press s now).1.recording_active &&
        (on_key_press s now).1.processing) = false ∧
    ((on_key_release s).1.recording_active &&
        (on_key_release s).1.processing) = false ∧
    ((process_pipeline cfg env s now).1.recording_active &&
        (process_pipeline cfg env s now).1.processing) = false := by
  refine ⟨?_, ?_, ?_⟩
  · unfold on_key_press
    split_ifs <;> simp_all
  · unfold on_key_release
    split_ifs <;> simp_all
  · unfold process_pipeline run_cleanup set_enabled
    simp

/-- Witness for C9 at the initial coordinator state. -/
theorem c9_flags_never_both_true_witness :
    ((on_key_press
        { processing := false, recording_active := false,
          last_pipeline_end := 0, gate := { enabled := true, pressed := false } }
        0).1.recording_active &&
      (on_key_press
        { processing := false, recording_active := false,
          last_pipeline_end := 0, gate := { enabled := true, pressed := false } }
        0).1.processing) = false ∧
    ((on_key_release
        { processing := false, recording_active := false,
          last_pipeline_end := 0, gate := { enabled := true, pressed := false } }).1.recording_active &&
      (on_key_release
        { processing := false, recording_active := false,
          last_pipeline_end := 0, gate := { enabled := true, pressed := false } }).1.processing) = false ∧
    ((process_pipeline
        { stt := { word_replacements := [] },
          llm := { skip_short := true, skip_short_max_chars := 20 },
          audio := { sample_rate := 16000, min_duration_sec := 1 / 2 } }
        { recorder_stop := .ok 0, stt_transcribe := .ok [],
          llm_format := .ok [], insert_result := fun _ => .ok () }
        { processing := false, recording_active := false,
          last_pipeline_end := 0, gate := { enabled := true, pressed := false } }
        0).1.recording_active &&
      (process_pipeline
        { stt := { word_replacements := [] },
          llm := { skip_short := true, skip_short_max_chars := 20 },
          audio := { sample_rate := 16000, min_duration_sec := 1 / 2 } }
        { recorder_stop := .ok 0, stt_transcribe := .ok [],
          llm_format := .ok [], insert_result := fun _ => .ok () }
        { processing := false, recording_active := false,
          last_pipeline_end := 0, gate := { enabled := true, pressed := false } }
        0).1.processing) = false :=
  c9_flags_never_both_true _ _ _ _ rfl

/-- C10: for nonpositive durations the filter's outcome is fully
characterised by the non-ratio rules, so the characters-per-second rule
never fires there and the guarded division is never reached. -/
theorem c10_nonpositive_duration_no_ratio_reject (text : List Char) (d : ℚ)
    (hd : d ≤ 0) :
    (validate_transcription text d = [] ↔
      (text = [] ∨ contains_simplified_chinese text = true ∨
        matches_hallucination text = true ∨ has_repetition text = true)) := by
  unfold validate_transcription validate_tail
  rw [if_neg (not_lt.mpr hd)]
  cases hE : text.isEmpty <;> cases hC : contains_simplified_chinese text <;>
    cases hH : matches_hallucination text <;> cases hR : has_repetition text <;>
      simp_all [List.isEmpty_iff]

/-- Witness for C10 at duration zero with an ordinary greeting. -/
theorem c10_nonpositive_duration_no_ratio_reject_witness :
    (validate_transcription (String.toList "こんにちは") 0 = [] ↔
      (String.toList "こんにちは" = [] ∨
        contains_simplified_chinese (String.toList "こんにちは") = true ∨
        matches_hallucination (String.toList "こんにちは") = true ∨
        has_repetition (String.toList "こんにちは") = true)) :=
  c10_nonpositive_duration_no_ratio_reject _ 0 le_rfl

end Vox
